import Mathlib

/-!
Verification of the rust-rcon client (src/main.rs): protocol message model,
JSON serialization, ordered send sequence over a WebSocket transport, and
command-sequence collection from positional arguments and standard input.

External effects (URL parsing, the WebSocket handshake, frame writes and the
close call) are modelled by an abstract `Transport` whose fields record the
outcome of each external call; the embedding tracks the exact list of frames
handed to the transport and the number of connect/close attempts.
-/

/-- Embeds `struct Package` of src/main.rs: the protocol message.
`identifier` is an `i32` in the source but always `-1` here, far from overflow,
so `Int` is faithful. The `Cow` string fields are plain `String`s (a memory
optimization in the source, not behaviour). -/
structure Package where
  identifier : Int
  message : String
  name : String
deriving DecidableEq

/-- Embeds `Package::new_command` (src/main.rs lines 22-33). -/
def Package.new_command (command : String) : Package :=
  { identifier := -1, message := command, name := "WebRcon" }

/-- Lowercase hex digit, as serde_json uses for `\u00XX` escapes. -/
def hexDigit (n : Nat) : Char :=
  if n < 10 then Char.ofNat (48 + n) else Char.ofNat (87 + n)

/-- serde_json's escaping of a single character inside a JSON string:
`"` and `\` get a backslash escape, control characters below 0x20 get the
short escapes `\b \t \n \f \r` or a `\u00XX` escape, everything else is
emitted verbatim. -/
def jsonEscapeChar (c : Char) : String :=
  if c = '"' then "\\\""
  else if c = '\\' then "\\\\"
  else if c.toNat < 32 then
    if c.toNat = 8 then "\\b"
    else if c.toNat = 9 then "\\t"
    else if c.toNat = 10 then "\\n"
    else if c.toNat = 12 then "\\f"
    else if c.toNat = 13 then "\\r"
    else "\\u00" ++ String.mk [hexDigit (c.toNat / 16), hexDigit (c.toNat % 16)]
  else String.singleton c

/-- serde_json's escaping of a whole JSON string body. -/
def jsonEscape (s : String) : String :=
  String.join (s.data.map jsonEscapeChar)

/-- The wire text serde_json produces for a `Package`: serde emits the fields
in declaration order under their `rename`d keys `Identifier`, `Message`,
`Name` (src/main.rs lines 12-20). -/
def serializePackage (p : Package) : String :=
  "\x7b\"Identifier\":" ++ toString p.identifier ++ ",\"Message\":\""
    ++ jsonEscape p.message ++ "\",\"Name\":\"" ++ jsonEscape p.name ++ "\"\x7d"

/-- Embeds `serde_json::to_string(&package)` at src/main.rs line 48. The call
site handles an error with `.context(...)?`, but serde_json only signals an
error when a `Serialize` impl fails or a map key is not a string; the derived
impl for `Package` (an `i32` and two string fields) never does, so the
embedding always returns `.ok`. -/
def serdeToString (p : Package) : Except String String :=
  .ok (serializePackage p)

/-- A WebSocket frame. The source only ever constructs `Message::Text`;
`binary` exists so "no binary frame is ever sent" is statable. -/
inductive Frame where
  | text (s : String)
  | binary (b : List Nat)
deriving DecidableEq

/-- The failure stages of `send_packages`, one per `.context(...)` site. -/
inductive SendError where
  | urlParse
  | connect
  | serialize
  | write
  | close
deriving DecidableEq

/-- Outcomes of the external calls made by `send_packages`: whether
`Url::parse` succeeds on a given string, whether `connect` succeeds, whether
the i-th `write_message` succeeds, and whether `close` succeeds. -/
structure Transport where
  urlOk : String → Bool
  connectOk : Bool
  writeOk : Nat → Bool
  closeOk : Bool

/-- The send loop of src/main.rs lines 43-51: serialize each package, send it
as a text frame, abort on the first serialization or write failure. Returns
the frames actually transmitted (in order) and the loop's result; `i` counts
the writes already attempted. -/
def sendLoop (t : Transport) : Nat → List Package → List Frame × Except SendError Unit
  | _, [] => ([], .ok ())
  | i, p :: ps =>
    match serdeToString p with
    | .error _ => ([], .error .serialize)
    | .ok s =>
      if t.writeOk i then
        let r := sendLoop t (i + 1) ps
        (Frame.text s :: r.1, r.2)
      else ([], .error .write)

/-- What one invocation of `send_packages` did: the frames transmitted, how
many connection attempts and close attempts were made, and the returned
`Result`. -/
structure SendOutcome where
  sent : List Frame
  connectAttempts : Nat
  closeAttempts : Nat
  result : Except SendError Unit

/-- Embeds `send_packages` (src/main.rs lines 35-56): parse the url, connect,
run the send loop, then close; each step aborts with its stage's error. The
two `debug!`/`info!` logging lines have no effect on control flow and are
omitted. -/
def send_packages (url : String) (t : Transport) (packages : List Package) : SendOutcome :=
  if t.urlOk url then
    if t.connectOk then
      let r := sendLoop t 0 packages
      match r.2 with
      | .error e => ⟨r.1, 1, 0, .error e⟩
      | .ok _ =>
        if t.closeOk then ⟨r.1, 1, 1, .ok ()⟩ else ⟨r.1, 1, 1, .error .close⟩
    else ⟨[], 1, 0, .error .connect⟩
  else ⟨[], 0, 0, .error .urlParse⟩

/-- The connection url built by `run` (src/main.rs lines 58-69):
`format!("{}://{}:{}/{}", if ssl then "wss" else "ws", server, port, password)`. -/
def endpoint (server : String) (port : Nat) (password : String) (ssl : Bool) : String :=
  (if ssl then "wss" else "ws") ++ "://" ++ server ++ ":" ++ toString port ++ "/" ++ password

/-- Embeds `run` (src/main.rs lines 58-69). -/
def run (server : String) (port : Nat) (password : String) (packages : List Package)
    (ssl : Bool) (t : Transport) : SendOutcome :=
  send_packages (endpoint server port password ssl) t packages

/-- Embeds the command-collection loop of `main` (src/main.rs lines 107-124):
each positional argument other than the literal `-` pushes one package; a `-`
argument reads standard input to end-of-input and pushes one package per line.
Standard input is a consumable stream: after a `-` has drained it, a later `-`
reads nothing, which the recursion models by passing `[]` on. -/
def collectPackages : List String → List String → List Package
  | [], _ => []
  | c :: cs, stdinLines =>
    if c = "-" then stdinLines.map Package.new_command ++ collectPackages cs []
    else Package.new_command c :: collectPackages cs stdinLines

/-- A transport on which every external call succeeds. -/
def allOk : Transport :=
  { urlOk := fun _ => true, connectOk := true, writeOk := fun _ => true, closeOk := true }

/-- A transport whose url never parses. -/
def badUrl : Transport :=
  { urlOk := fun _ => false, connectOk := true, writeOk := fun _ => true, closeOk := true }

/-- A transport on which the WebSocket handshake fails. -/
def badConnect : Transport :=
  { urlOk := fun _ => true, connectOk := false, writeOk := fun _ => true, closeOk := true }

/-- A transport on which the i-th frame write fails. -/
def failAt (k : Nat) : Transport :=
  { urlOk := fun _ => true, connectOk := true, writeOk := fun i => i ≠ k, closeOk := true }

/-- A transport on which only the final close fails. -/
def badClose : Transport :=
  { urlOk := fun _ => true, connectOk := true, writeOk := fun _ => true, closeOk := false }

/-! ### Helper lemmas -/

theorem sendLoop_all_ok (t : Transport) (hw : ∀ j, t.writeOk j = true) :
    ∀ (ps : List Package) (i : Nat),
      sendLoop t i ps = (ps.map (fun p => Frame.text (serializePackage p)), Except.ok ())
  | [], _ => rfl
  | p :: ps, i => by
    simp [sendLoop, serdeToString, hw i, sendLoop_all_ok t hw ps (i + 1)]

theorem sendLoop_ok_sent (t : Transport) :
    ∀ (ps : List Package) (i : Nat), (sendLoop t i ps).2 = Except.ok () →
      (sendLoop t i ps).1 = ps.map (fun p => Frame.text (serializePackage p))
  | [], _, _ => rfl
  | p :: ps, i, h => by
    by_cases hw : t.writeOk i
    · have ih := sendLoop_ok_sent t ps (i + 1)
        (by simpa [sendLoop, serdeToString, hw] using h)
      simp [sendLoop, serdeToString, hw, ih]
    · simp [sendLoop, serdeToString, hw] at h

theorem sendLoop_frames_text (t : Transport) :
    ∀ (ps : List Package) (i : Nat) (f : Frame), f ∈ (sendLoop t i ps).1 →
      ∃ s, f = Frame.text s
  | [], _, f, h => absurd h (by simp [sendLoop])
  | p :: ps, i, f, h => by
    by_cases hw : t.writeOk i
    · simp [sendLoop, serdeToString, hw] at h
      rcases h with h | h
      · exact ⟨_, h⟩
      · exact sendLoop_frames_text t ps (i + 1) f h
    · simp [sendLoop, serdeToString, hw] at h

theorem sendLoop_write_fail (t : Transport) :
    ∀ (ps : List Package) (i k : Nat), k < ps.length →
      (∀ j, j < k → t.writeOk (i + j) = true) → t.writeOk (i + k) = false →
      sendLoop t i ps
        = ((ps.take k).map (fun p => Frame.text (serializePackage p)),
           Except.error SendError.write)
  | [], _, k, hk, _, _ => absurd hk (by simp)
  | p :: ps, i, k, hk, hok, hfail => by
    cases k with
    | zero =>
      have h0 : t.writeOk i = false := by simpa using hfail
      simp [sendLoop, serdeToString, h0]
    | succ k =>
      have hw : t.writeOk i = true := by simpa using hok 0 (Nat.succ_pos k)
      have ih := sendLoop_write_fail t ps (i + 1) k (Nat.lt_of_succ_lt_succ hk)
        (fun j hj => by
          have hj1 := hok (j + 1) (Nat.succ_lt_succ hj)
          have he : i + (j + 1) = i + 1 + j := by omega
          rwa [he] at hj1)
        (by
          have he : i + (k + 1) = i + 1 + k := by omega
          rwa [he] at hfail)
      simp [sendLoop, serdeToString, hw, ih]

theorem sendLoop_no_serialize_err (t : Transport) :
    ∀ (ps : List Package) (i : Nat),
      (sendLoop t i ps).2 ≠ Except.error SendError.serialize
  | [], _ => by simp [sendLoop]
  | p :: ps, i => by
    by_cases hw : t.writeOk i
    · simpa [sendLoop, serdeToString, hw] using sendLoop_no_serialize_err t ps (i + 1)
    · simp [sendLoop, serdeToString, hw]

theorem send_packages_loop_error (url : String) (t : Transport) (ps : List Package)
    (e : SendError) (hu : t.urlOk url = true) (hc : t.connectOk = true)
    (he : (sendLoop t 0 ps).2 = Except.error e) :
    send_packages url t ps = ⟨(sendLoop t 0 ps).1, 1, 0, Except.error e⟩ := by
  simp [send_packages, hu, hc, he]

theorem send_packages_loop_ok (url : String) (t : Transport) (ps : List Package)
    (hu : t.urlOk url = true) (hc : t.connectOk = true)
    (ho : (sendLoop t 0 ps).2 = Except.ok ()) :
    send_packages url t ps
      = if t.closeOk then ⟨(sendLoop t 0 ps).1, 1, 1, Except.ok ()⟩
        else ⟨(sendLoop t 0 ps).1, 1, 1, Except.error SendError.close⟩ := by
  simp [send_packages, hu, hc, ho]

theorem send_packages_no_url (url : String) (t : Transport) (ps : List Package)
    (hu : t.urlOk url = false) :
    send_packages url t ps = ⟨[], 0, 0, Except.error SendError.urlParse⟩ := by
  simp [send_packages, hu]

theorem send_packages_no_connect (url : String) (t : Transport) (ps : List Package)
    (hu : t.urlOk url = true) (hc : t.connectOk = false) :
    send_packages url t ps = ⟨[], 1, 0, Except.error SendError.connect⟩ := by
  simp [send_packages, hu, hc]

theorem collect_no_sentinel : ∀ (cs lines : List String), "-" ∉ cs →
    collectPackages cs lines = cs.map Package.new_command
  | [], _, _ => rfl
  | c :: cs, lines, h => by
    have hc : ¬ c = "-" := fun e => h (e ▸ List.mem_cons_self c cs)
    have ih := collect_no_sentinel cs lines (fun m => h (List.mem_cons_of_mem c m))
    simp [collectPackages, hc, ih]

theorem collect_split (lines : List String) :
    ∀ (pre post : List String), "-" ∉ pre → "-" ∉ post →
      collectPackages (pre ++ "-" :: post) lines
        = pre.map Package.new_command ++ lines.map Package.new_command
          ++ post.map Package.new_command
  | [], post, _, hpost => by
    simp [collectPackages, collect_no_sentinel post [] hpost]
  | c :: pre, post, hpre, hpost => by
    have hc : ¬ c = "-" := fun e => hpre (e ▸ List.mem_cons_self c pre)
    have ih := collect_split lines pre post (fun m => hpre (List.mem_cons_of_mem c m)) hpost
    simp [collectPackages, hc, ih]

theorem serialize_new_command (c : String) :
    serializePackage (Package.new_command c)
      = "\x7b\"Identifier\":-1,\"Message\":\"" ++ jsonEscape c
        ++ "\",\"Name\":\"WebRcon\"\x7d" := by
  show "\x7b\"Identifier\":" ++ toString (-1 : Int) ++ ",\"Message\":\""
      ++ jsonEscape c ++ "\",\"Name\":\"" ++ jsonEscape "WebRcon" ++ "\"\x7d" = _
  have h1 : "\x7b\"Identifier\":" ++ toString (-1 : Int) ++ ",\"Message\":\""
      = "\x7b\"Identifier\":-1,\"Message\":\"" := rfl
  have h2 : jsonEscape "WebRcon" = "WebRcon" := rfl
  rw [h1, h2]
  apply String.ext
  simp [String.data_append]

/-! ### Claim theorems -/

/-- C1: for every command string `c` (including the empty string),
`Package.new_command c` is a `Package` with `message = c`, `identifier = -1`
and `name = "WebRcon"`; it is a total pure function. -/
theorem C1_new_command_fields (c : String) :
    (Package.new_command c).message = c ∧
    (Package.new_command c).identifier = -1 ∧
    (Package.new_command c).name = "WebRcon" :=
  ⟨rfl, rfl, rfl⟩

/-- C2: a successful invocation of `send_packages` transmits exactly the
serialized frames of the packages, one text frame each, in order — no
reordering, drops, duplication or batching — and for the empty sequence
nothing is sent and the close still happens. -/
theorem C2_success_transmits_exact_frames (url : String) (t : Transport)
    (packages : List Package)
    (h : (send_packages url t packages).result = Except.ok ()) :
    (send_packages url t packages).sent
      = packages.map (fun p => Frame.text (serializePackage p)) ∧
    (packages = [] → (send_packages url t packages).sent = [] ∧
      (send_packages url t packages).closeAttempts = 1) := by
  cases hu : t.urlOk url
  · rw [send_packages_no_url url t packages hu] at h
    simp at h
  · cases hc : t.connectOk
    · rw [send_packages_no_connect url t packages hu hc] at h
      simp at h
    · rcases hr : (sendLoop t 0 packages).2 with e | u
      · rw [send_packages_loop_error url t packages e hu hc hr] at h
        simp at h
      · cases u
        have hsent := sendLoop_ok_sent t packages 0 hr
        rw [send_packages_loop_ok url t packages hu hc hr] at h ⊢
        cases hcl : t.closeOk
        · rw [hcl] at h
          simp at h
        · refine ⟨by simp [hcl, hsent], fun hp => ?_⟩
          subst hp
          exact ⟨by simp [hcl, hsent], by simp [hcl]⟩

/-- C2 witness: concrete successful run with two commands. -/
theorem C2_success_transmits_exact_frames_witness :
    (send_packages "ws://example.com:28016/secret" allOk
        [Package.new_command "say hi", Package.new_command "env.time 9"]).sent
      = [Package.new_command "say hi", Package.new_command "env.time 9"].map
          (fun p => Frame.text (serializePackage p)) ∧
    ([Package.new_command "say hi", Package.new_command "env.time 9"]
        = ([] : List Package) →
      (send_packages "ws://example.com:28016/secret" allOk
          [Package.new_command "say hi", Package.new_command "env.time 9"]).sent = [] ∧
      (send_packages "ws://example.com:28016/secret" allOk
          [Package.new_command "say hi", Package.new_command "env.time 9"]).closeAttempts
        = 1) :=
  C2_success_transmits_exact_frames "ws://example.com:28016/secret" allOk
    [Package.new_command "say hi", Package.new_command "env.time 9"] rfl

/-- C3: the connection endpoint is `scheme://server:port/password` with scheme
`wss` exactly when ssl is requested and `ws` otherwise, password verbatim;
`run` hands exactly this url to `send_packages`; the two concrete examples of
the spec hold. -/
theorem C3_endpoint_format (server : String) (port : Nat) (password : String)
    (packages : List Package) (ssl : Bool) (t : Transport) :
    endpoint server port password false
      = "ws://" ++ server ++ ":" ++ toString port ++ "/" ++ password ∧
    endpoint server port password true
      = "wss://" ++ server ++ ":" ++ toString port ++ "/" ++ password ∧
    run server port password packages ssl t
      = send_packages (endpoint server port password ssl) t packages ∧
    endpoint "example.com" 28016 "secret" false = "ws://example.com:28016/secret" ∧
    endpoint "example.com" 28017 "secret" true = "wss://example.com:28017/secret" :=
  ⟨rfl, rfl, rfl, by decide, by decide⟩

/-- C4: the wire text of every built message is the JSON object with keys
`Identifier`, `Message`, `Name` in that order and the message text
JSON-escaped; `build("say hello")` serializes to exactly the spec's example;
and every frame ever handed to the transport is a text frame, never binary. -/
theorem C4_wire_format_and_text_frames (c : String) (url : String) (t : Transport)
    (ps : List Package) (f : Frame) (hf : f ∈ (send_packages url t ps).sent) :
    serializePackage (Package.new_command c)
      = "\x7b\"Identifier\":-1,\"Message\":\"" ++ jsonEscape c
        ++ "\",\"Name\":\"WebRcon\"\x7d" ∧
    serializePackage (Package.new_command "say hello")
      = "\x7b\"Identifier\":-1,\"Message\":\"say hello\",\"Name\":\"WebRcon\"\x7d" ∧
    (∃ s, f = Frame.text s) := by
  refine ⟨serialize_new_command c, by decide, ?_⟩
  cases hu : t.urlOk url
  · rw [send_packages_no_url url t ps hu] at hf
    simp at hf
  · cases hc : t.connectOk
    · rw [send_packages_no_connect url t ps hu hc] at hf
      simp at hf
    · rcases hr : (sendLoop t 0 ps).2 with e | u
      · rw [send_packages_loop_error url t ps e hu hc hr] at hf
        exact sendLoop_frames_text t ps 0 f hf
      · cases u
        rw [send_packages_loop_ok url t ps hu hc hr] at hf
        cases hcl : t.closeOk <;> rw [hcl] at hf <;> simp at hf <;>
          exact sendLoop_frames_text t ps 0 f hf

/-- C4 witness: the example frame of the spec on a concrete successful run. -/
theorem C4_wire_format_and_text_frames_witness :
    serializePackage (Package.new_command "say hello")
      = "\x7b\"Identifier\":-1,\"Message\":\"say hello\",\"Name\":\"WebRcon\"\x7d" ∧
    serializePackage (Package.new_command "say hello")
      = "\x7b\"Identifier\":-1,\"Message\":\"say hello\",\"Name\":\"WebRcon\"\x7d" ∧
    (∃ s, Frame.text (serializePackage (Package.new_command "say hello"))
      = Frame.text s) :=
  C4_wire_format_and_text_frames "say hello" "ws://1.2.3.4:28016/pw" allOk
    [Package.new_command "say hello"]
    (Frame.text (serializePackage (Package.new_command "say hello"))) (by decide)

/-- C5: if the url does not parse, or the WebSocket handshake fails, zero
messages are transmitted and the error identifies the stage (urlParse
vs connect). -/
theorem C5_connect_stage_errors (url : String) (t : Transport) (ps : List Package) :
    (t.urlOk url = false →
      (send_packages url t ps).sent = [] ∧
      (send_packages url t ps).result = Except.error SendError.urlParse) ∧
    (t.urlOk url = true → t.connectOk = false →
      (send_packages url t ps).sent = [] ∧
      (send_packages url t ps).result = Except.error SendError.connect) := by
  constructor
  · intro hu
    rw [send_packages_no_url url t ps hu]
    exact ⟨rfl, rfl⟩
  · intro hu hc
    rw [send_packages_no_connect url t ps hu hc]
    exact ⟨rfl, rfl⟩

/-- C5 witness: a bad url and a failed handshake on concrete inputs. -/
theorem C5_connect_stage_errors_witness :
    ((send_packages "::" badUrl [Package.new_command "say hi"]).sent = [] ∧
     (send_packages "::" badUrl [Package.new_command "say hi"]).result
        = Except.error SendError.urlParse) ∧
    ((send_packages "ws://example.com:28016/secret" badConnect
        [Package.new_command "say hi"]).sent = [] ∧
     (send_packages "ws://example.com:28016/secret" badConnect
        [Package.new_command "say hi"]).result = Except.error SendError.connect) :=
  ⟨(C5_connect_stage_errors "::" badUrl [Package.new_command "say hi"]).1 rfl,
   (C5_connect_stage_errors "ws://example.com:28016/secret" badConnect
      [Package.new_command "say hi"]).2 rfl rfl⟩

/-- C6: if the N-th write fails (N >= 1, earlier writes succeeded), exactly the
first N-1 messages were transmitted, the write error is returned, and no close
is attempted. -/
theorem C6_midstream_failure (url : String) (t : Transport) (ps : List Package)
    (n : Nat) (hu : t.urlOk url = true) (hc : t.connectOk = true)
    (hn : 1 ≤ n) (hlen : n ≤ ps.length)
    (hok : ∀ j, j < n - 1 → t.writeOk j = true)
    (hfail : t.writeOk (n - 1) = false) :
    (send_packages url t ps).sent
      = (ps.take (n - 1)).map (fun p => Frame.text (serializePackage p)) ∧
    (send_packages url t ps).result = Except.error SendError.write ∧
    (send_packages url t ps).closeAttempts = 0 := by
  have hk : n - 1 < ps.length := by omega
  have hloop := sendLoop_write_fail t ps 0 (n - 1) hk
    (fun j hj => by simpa using hok j hj) (by simpa using hfail)
  rw [send_packages_loop_error url t ps SendError.write hu hc (by rw [hloop])]
  exact ⟨by rw [hloop], rfl, rfl⟩

/-- C6 witness: three packages, the second write fails, exactly the first
frame goes out. -/
theorem C6_midstream_failure_witness :
    (send_packages "ws://example.com:28016/secret" (failAt 1)
        [Package.new_command "a", Package.new_command "b", Package.new_command "c"]).sent
      = ([Package.new_command "a", Package.new_command "b",
          Package.new_command "c"].take (2 - 1)).map
          (fun p => Frame.text (serializePackage p)) ∧
    (send_packages "ws://example.com:28016/secret" (failAt 1)
        [Package.new_command "a", Package.new_command "b", Package.new_command "c"]).result
      = Except.error SendError.write ∧
    (send_packages "ws://example.com:28016/secret" (failAt 1)
        [Package.new_command "a", Package.new_command "b",
         Package.new_command "c"]).closeAttempts = 0 :=
  C6_midstream_failure "ws://example.com:28016/secret" (failAt 1)
    [Package.new_command "a", Package.new_command "b", Package.new_command "c"] 2
    rfl rfl (by decide) (by decide)
    (fun j hj => by
      have hj0 : j = 0 := by omega
      subst hj0
      rfl)
    rfl

/-- C7: within a connected invocation, the close is attempted exactly when the
send loop finished successfully; a close failure yields the close-stage error
while the transmitted frames remain the full serialized sequence; and the
connection is opened at most once and closed at most once. -/
theorem C7_close_semantics (url : String) (t : Transport) (ps : List Package)
    (hu : t.urlOk url = true) (hc : t.connectOk = true) :
    ((send_packages url t ps).closeAttempts = 1 ↔
      (sendLoop t 0 ps).2 = Except.ok ()) ∧
    ((sendLoop t 0 ps).2 = Except.ok () → t.closeOk = false →
      (send_packages url t ps).result = Except.error SendError.close ∧
      (send_packages url t ps).sent
        = ps.map (fun p => Frame.text (serializePackage p))) ∧
    (send_packages url t ps).connectAttempts ≤ 1 ∧
    (send_packages url t ps).closeAttempts ≤ 1 := by
  rcases hr : (sendLoop t 0 ps).2 with e | u
  · rw [send_packages_loop_error url t ps e hu hc hr]
    refine ⟨?_, ?_, by simp, by simp⟩
    · simp [hr]
    · intro ho
      exact absurd ho (by simp)
  · cases u
    have hsent := sendLoop_ok_sent t ps 0 hr
    rw [send_packages_loop_ok url t ps hu hc hr]
    cases hcl : t.closeOk
    · refine ⟨by simp [hcl, hr], fun _ _ => ⟨by simp [hcl], by simp [hcl, hsent]⟩,
        by simp [hcl], by simp [hcl]⟩
    · refine ⟨by simp [hcl, hr], fun _ hfalse => ?_, by simp [hcl], by simp [hcl]⟩
      exact absurd hfalse (by simp)

/-- C7 witness: one package, all writes succeed, the close itself fails. -/
theorem C7_close_semantics_witness :
    ((send_packages "ws://example.com:28016/secret" badClose
        [Package.new_command "say hi"]).closeAttempts = 1 ↔
      (sendLoop badClose 0 [Package.new_command "say hi"]).2 = Except.ok ()) ∧
    ((sendLoop badClose 0 [Package.new_command "say hi"]).2 = Except.ok () →
      badClose.closeOk = false →
      (send_packages "ws://example.com:28016/secret" badClose
          [Package.new_command "say hi"]).result = Except.error SendError.close ∧
      (send_packages "ws://example.com:28016/secret" badClose
          [Package.new_command "say hi"]).sent
        = [Package.new_command "say hi"].map
            (fun p => Frame.text (serializePackage p))) ∧
    (send_packages "ws://example.com:28016/secret" badClose
        [Package.new_command "say hi"]).connectAttempts ≤ 1 ∧
    (send_packages "ws://example.com:28016/secret" badClose
        [Package.new_command "say hi"]).closeAttempts ≤ 1 :=
  C7_close_semantics "ws://example.com:28016/secret" badClose
    [Package.new_command "say hi"] rfl rfl

/-- C8: command collection processes arguments left to right: with a single
`-` sentinel between sentinel-free prefixes and suffixes, the packages are the
prefix commands, then one package per stdin line in order, then the suffix
commands; and without any sentinel the packages are exactly the arguments in
order. -/
theorem C8_command_collection (pre post lines : List String)
    (hpre : "-" ∉ pre) (hpost : "-" ∉ post) :
    collectPackages (pre ++ "-" :: post) lines
      = pre.map Package.new_command ++ lines.map Package.new_command
        ++ post.map Package.new_command ∧
    (∀ cs : List String, "-" ∉ cs →
      collectPackages cs lines = cs.map Package.new_command) :=
  ⟨collect_split lines pre post hpre hpost,
   fun cs h => collect_no_sentinel cs lines h⟩

/-- C8 witness: the spec's stdin example interleaved between two commands. -/
theorem C8_command_collection_witness :
    collectPackages (["say a"] ++ "-" :: ["status"]) ["say hi", "env.time 9"]
      = ["say a"].map Package.new_command
        ++ ["say hi", "env.time 9"].map Package.new_command
        ++ ["status"].map Package.new_command ∧
    (∀ cs : List String, "-" ∉ cs →
      collectPackages cs ["say hi", "env.time 9"] = cs.map Package.new_command) :=
  C8_command_collection ["say a"] ["status"] ["say hi", "env.time 9"]
    (by decide) (by decide)

/-- C9: serialization of a `Package` always succeeds, so the only errors
`send_packages` can return are the url-parse, connect, write and close stage
errors — never the serialization error. -/
theorem C9_serialization_infallible (url : String) (t : Transport)
    (ps : List Package) :
    (∀ p : Package, serdeToString p = Except.ok (serializePackage p)) ∧
    (∀ e : SendError, (send_packages url t ps).result = Except.error e →
      e = SendError.urlParse ∨ e = SendError.connect ∨ e = SendError.write
        ∨ e = SendError.close) := by
  refine ⟨fun p => rfl, fun e he => ?_⟩
  cases e with
  | urlParse => exact Or.inl rfl
  | connect => exact Or.inr (Or.inl rfl)
  | write => exact Or.inr (Or.inr (Or.inl rfl))
  | close => exact Or.inr (Or.inr (Or.inr rfl))
  | serialize =>
    exfalso
    cases hu : t.urlOk url
    · rw [send_packages_no_url url t ps hu] at he
      simp at he
    · cases hc : t.connectOk
      · rw [send_packages_no_connect url t ps hu hc] at he
        simp at he
      · rcases hr : (sendLoop t 0 ps).2 with e' | u
        · rw [send_packages_loop_error url t ps e' hu hc hr] at he
          simp at he
          exact sendLoop_no_serialize_err t ps 0 (he ▸ hr)
        · cases u
          rw [send_packages_loop_ok url t ps hu hc hr] at he
          cases hcl : t.closeOk <;> rw [hcl] at he <;> simp at he

/-- C9 witness: serialization of a concrete package succeeds, and a concrete
failing run returns a non-serialization stage error. -/
theorem C9_serialization_infallible_witness :
    serdeToString (Package.new_command "say hi")
      = Except.ok (serializePackage (Package.new_command "say hi")) ∧
    (SendError.connect = SendError.urlParse ∨
     SendError.connect = SendError.connect ∨
     SendError.connect = SendError.write ∨
     SendError.connect = SendError.close) :=
  ⟨(C9_serialization_infallible "ws://example.com:28016/secret" badConnect
      [Package.new_command "say hi"]).1 (Package.new_command "say hi"),
   (C9_serialization_infallible "ws://example.com:28016/secret" badConnect
      [Package.new_command "say hi"]).2 SendError.connect rfl⟩

theorem collect_message_from_stdin : ∀ (cs lines : List String) (p : Package),
    p ∈ collectPackages cs lines → p.message = "-" → "-" ∈ lines
  | [], _, p, hp, _ => absurd hp (by simp [collectPackages])
  | c :: cs, lines, p, hp, hm => by
    by_cases hc : c = "-"
    · rw [hc] at hp
      simp [collectPackages] at hp
      rcases hp with ⟨l, hl, he⟩ | hp
      · rw [← he] at hm
        simp [Package.new_command] at hm
        exact hm ▸ hl
      · exact absurd (collect_message_from_stdin cs [] p hp hm) (by simp)
    · simp [collectPackages, hc] at hp
      rcases hp with he | hp
      · rw [he] at hm
        simp [Package.new_command] at hm
        exact absurd hm hc
      · exact collect_message_from_stdin cs lines p hp hm

/-- C10: a positional argument equal to `-` is always consumed as the stdin
sentinel, so a collected package whose message is `-` can only come from a
line of standard input. -/
theorem C10_sentinel_arg_never_sent (cs lines : List String) (p : Package)
    (hp : p ∈ collectPackages cs lines) (hm : p.message = "-") : "-" ∈ lines :=
  collect_message_from_stdin cs lines p hp hm

/-- C10 witness: a `-` argument after a command, with stdin holding a literal
`-` line — the only `-` package present comes from stdin. -/
theorem C10_sentinel_arg_never_sent_witness : "-" ∈ ["-"] :=
  C10_sentinel_arg_never_sent ["say hi", "-"] ["-"] (Package.new_command "-")
    (by decide) rfl
